import Mathlib

/-!
# Verification of `ntfy-cron.py` (somethingstarted/ntfy-disk-space-alerts)

Shallow embedding of the single-file Python program `src/ntfy-cron.py`.

Modelling conventions:
* External processes (`subprocess.run`) are an oracle `Env.exec` mapping the
  exact argument vector to an outcome: either a raised exception
  (missing binary, I/O error) or a completed process with an exit code and
  captured stdout.  `check=False` in the source means a completed process
  never raises regardless of exit code.
* The `/sys/block/<dev>/size` read is an oracle `Env.readFile`
  (`none` models a raised `OSError`).
* `os.path.isdir`, `socket.gethostname` and `datetime.today().weekday()`
  are oracles `Env.isdir`, `Env.hostname`, `Env.today`.
* Python string operations (`strip`, `split`, `splitlines`, `isdigit`,
  `int(...)`, substring `in`) are re-implemented over `List Char` restricted
  to ASCII whitespace `' '`, `'\t'`, `'\n'`, `'\r'`, `'\x0b'`, `'\x0c'`
  (the Unicode-only extensions of Python's whitespace class and the
  underscore digit-group syntax of `int()` are not modelled).
* Python floats are modelled as exact rationals `ℚ`; the `:.2f`/`:.1f`
  formatting is modelled as decimal rounding of the rational (half away
  from zero), which agrees with CPython except at ties introduced by
  binary-float rounding.
* The module-level globals (`NTFY_URL` … `ALERT_DAYS`) are gathered into a
  `Config` structure; `defaultConfig` holds exactly the source's values.
-/

namespace NtfyCron

/-- Python's whitespace class for `str.strip`/`str.split`, ASCII part. -/
def pyWS (c : Char) : Bool :=
  c == ' ' || c == '\t' || c == '\n' || c == '\r' || c == '\x0b' || c == '\x0c'

/-- The list with leading and trailing whitespace removed (Python `str.strip`). -/
def stripList (l : List Char) : List Char :=
  ((l.dropWhile pyWS).reverse.dropWhile pyWS).reverse

/-- Python `str.strip()`. -/
def pyStrip (s : String) : String := ⟨stripList s.data⟩

/-- Worker for `pySplitlines`: splits on `\n`, `\r` and `\r\n`,
with no empty trailing line (CPython `str.splitlines`). -/
def pySplitlinesAux : List Char → List Char → List (List Char)
  | [], acc => if acc.isEmpty then [] else [acc.reverse]
  | '\r' :: '\n' :: rest, acc => acc.reverse :: pySplitlinesAux rest []
  | '\n' :: rest, acc => acc.reverse :: pySplitlinesAux rest []
  | '\r' :: rest, acc => acc.reverse :: pySplitlinesAux rest []
  | c :: rest, acc => pySplitlinesAux rest (c :: acc)

/-- Python `str.splitlines()`. -/
def pySplitlines (s : String) : List String :=
  (pySplitlinesAux s.data []).map String.mk

/-- Worker for `pyTokens`: maximal runs of non-whitespace characters. -/
def wsTokensAux : List Char → List Char → List (List Char)
  | [], acc => if acc.isEmpty then [] else [acc.reverse]
  | c :: rest, acc =>
    if pyWS c then
      if acc.isEmpty then wsTokensAux rest []
      else acc.reverse :: wsTokensAux rest []
    else wsTokensAux rest (c :: acc)

/-- Python `str.split()` with no separator: whitespace-delimited tokens,
never containing an empty token. -/
def pyTokens (s : String) : List String :=
  (wsTokensAux s.data []).map String.mk

/-- Python `str.isdigit()` (ASCII part): non-empty and all digits. -/
def pyIsdigit (s : String) : Bool :=
  !s.data.isEmpty && s.data.all Char.isDigit

/-- Decimal value of a digit string. -/
def digitsToNat (l : List Char) : Nat :=
  l.foldl (fun n c => 10 * n + (c.toNat - '0'.toNat)) 0

/-- Python `int(s)`: strips whitespace, accepts an optional sign followed by
a non-empty digit string, otherwise raises (`none`). -/
def pyParseInt (s : String) : Option Int :=
  let t := stripList s.data
  match t with
  | '+' :: rest =>
    if !rest.isEmpty && rest.all Char.isDigit then some (digitsToNat rest) else none
  | '-' :: rest =>
    if !rest.isEmpty && rest.all Char.isDigit then some (-(digitsToNat rest : Int)) else none
  | l =>
    if !l.isEmpty && l.all Char.isDigit then some (digitsToNat l) else none

/-- `needle` is a prefix of `hay` (over characters). -/
def isPrefixList : List Char → List Char → Bool
  | [], _ => true
  | _ :: _, [] => false
  | a :: as, b :: bs => a == b && isPrefixList as bs

/-- Python's substring test `needle in hay`. -/
def containsSub (needle : List Char) : List Char → Bool
  | [] => needle.isEmpty
  | c :: rest => isPrefixList needle (c :: rest) || containsSub needle rest

/-- Outcome of `subprocess.run`: with `check=False` a completed process never
raises, whatever its exit code; a raised exception models a missing binary
or I/O error. -/
inductive ExecOutcome where
  | raised : ExecOutcome
  | completed (exitCode : Nat) (stdout : String) : ExecOutcome
deriving DecidableEq

/-- The external world one run of the script observes. -/
structure Env where
  exec : List String → ExecOutcome
  readFile : String → Option String
  isdir : String → Bool
  hostname : String
  today : Nat

/-- The module-level configuration constants of `ntfy-cron.py`. -/
structure Config where
  ntfyUrl : String
  dirsToCheck : List String
  okLevel : Int
  warningLevel : Int
  minFreeSpaceGB : Int
  alertDays : List Nat

/-- The values hard-coded at the top of `ntfy-cron.py`. -/
def defaultConfig : Config where
  ntfyUrl := "https://your.ntfy.server"
  dirsToCheck := ["/etc", "/var/log", "/home"]
  okLevel := 70
  warningLevel := 70 - 10
  minFreeSpaceGB := 5
  alertDays := [0, 1, 2, 3, 4, 5, 6, 7]

/-- Model of `run(cmd)`: captured, stripped stdout; empty when execution raised. -/
def run (env : Env) (cmd : List String) : String :=
  match env.exec cmd with
  | .raised => ""
  | .completed _ out => pyStrip out

/-- Filter of `get_disks`: keeps a line's first token when the second token
is `"disk"` and `"boot"` is not a substring of the first; a line with fewer
than two tokens raises `IndexError` (`Except.error`). -/
def disksFromLines : List String → Except Unit (List String)
  | [] => .ok []
  | line :: rest =>
    match pyTokens line with
    | t0 :: t1 :: _ =>
      match disksFromLines rest with
      | .error e => .error e
      | .ok r =>
        .ok (if t1 == "disk" && !containsSub ("boot".data) t0.data then t0 :: r else r)
    | _ => .error ()

/-- Model of `get_disks()`. -/
def get_disks (env : Env) : Except Unit (List String) :=
  disksFromLines (pySplitlines (run env ["lsblk", "-dn", "-o", "NAME,TYPE"]))

/-- Model of `get_disk_size_bytes(dev)`: `lsblk -bn -o SIZE`, falling back to
`/sys/block/<dev>/size` times 512; `none` when both fail. -/
def get_disk_size_bytes (env : Env) (dev : String) : Option Int :=
  let size_str := run env ["lsblk", "-bn", "-o", "SIZE", "/dev/" ++ dev]
  if pyIsdigit size_str then some (digitsToNat size_str.data : Int)
  else
    match env.readFile ("/sys/block/" ++ dev ++ "/size") with
    | none => none
    | some content =>
      match pyParseInt (pyStrip content) with
      | some sectors => some (sectors * 512)
      | none => none

/-- One loop iteration of `get_used_bytes`: the bytes a single `lsblk`
partition line adds to the running total (0 for the whole-disk entry, an
unmounted partition, or unparsable `df` output). -/
def partContribution (env : Env) (dev part : String) : Int :=
  if pyStrip part == dev then 0
  else
    match (pySplitlines (run env ["lsblk", "-n", "-o", "MOUNTPOINT", "/dev/" ++ part])).head? with
    | some m =>
      if m ≠ "" then
        match (pySplitlines (run env ["df", "--output=used", "-B1", m])).get? 1 with
        | some l2 => (pyParseInt l2).getD 0
        | none => 0
      else 0
    | none => 0

/-- Model of `get_used_bytes(dev)`. -/
def get_used_bytes (env : Env) (dev : String) : Int :=
  (pySplitlines (run env ["lsblk", "-ln", "-o", "NAME", "/dev/" ++ dev])).foldl
    (fun used part => used + partContribution env dev part) 0

/-- Render a rational with `d` decimal places, rounding half away from zero
(models CPython's fixed-point float formatting). -/
def fmtFixed (d : Nat) (q : ℚ) : String :=
  let p : ℚ := (10 : ℚ) ^ d
  let n : Int := ⌊|q| * p + 1 / 2⌋
  let ip := n / (10 : Int) ^ d
  let fpDigits := Nat.toDigits 10 ((n % (10 : Int) ^ d).toNat)
  let pad := String.mk (List.replicate (d - fpDigits.length) '0')
  (if q < 0 ∧ n ≠ 0 then "-" else "") ++ toString ip ++
    (if d = 0 then "" else "." ++ pad ++ String.mk fpDigits)

/-- Worker for `format_size`: walk the unit ladder dividing by 1024. -/
def format_sizeAux (v : ℚ) : List Char → String
  | [] => fmtFixed 1 v ++ "P"
  | u :: rest => if v < 1024 then fmtFixed 1 v ++ String.mk [u] else format_sizeAux (v / 1024) rest

/-- Model of `format_size(bytes_val)`: scale to B/K/M/G/T/P, one decimal place. -/
def format_size (bytesVal : ℚ) : String :=
  format_sizeAux bytesVal ['B', 'K', 'M', 'G', 'T']

/-- One line of `get_dir_sizes`; the `du` call bypasses `run()` so a raised
exception propagates (`Except.error`), as does the (unreachable)
`IndexError` of `du_output.split()[0]`. -/
def dirSizeLine (env : Env) (d : String) : Except Unit String :=
  if env.isdir d then
    match env.exec ["du", "-sh", d] with
    | .raised => .error ()
    | .completed _ out =>
      let du_output := pyStrip out
      if du_output ≠ "" then
        match (pyTokens du_output).head? with
        | some size => .ok (d ++ ": " ++ size)
        | none => .error ()
      else .ok (d ++ ": Error getting size")
  else .ok (d ++ ": Not found")

/-- Model of `get_dir_sizes(dirs)`. -/
def get_dir_sizes (env : Env) : List String → Except Unit (List String)
  | [] => .ok []
  | d :: rest =>
    match dirSizeLine env d with
    | .error e => .error e
    | .ok l =>
      match get_dir_sizes env rest with
      | .error e => .error e
      | .ok r => .ok (l :: r)

/-- Model of `check_emoji(percent)`: sequential threshold checks against
`OK_LEVEL` then `WARNING_LEVEL`. -/
def check_emoji (cfg : Config) (percent : ℚ) : String :=
  if percent ≤ (cfg.okLevel : ℚ) then "✅"
  else if percent ≤ (cfg.warningLevel : ℚ) then "🟠"
  else "🔴"

/-- Model of `should_alert_today()`: membership of the weekday in `ALERT_DAYS`. -/
def should_alert_today (env : Env) (cfg : Config) : Bool :=
  cfg.alertDays.contains env.today

/-- The usage percentage of a device, present exactly when the module-level
guard `if size and size > 0` passes (Python truthiness: `None` and `0` are
falsy, so the guard is equivalent to a strict positivity test). -/
def devicePercent? (env : Env) (dev : String) : Option ℚ :=
  match get_disk_size_bytes env dev with
  | some size =>
    if 0 < size then some ((get_used_bytes env dev : ℚ) / (size : ℚ) * 100)
    else none
  | none => none

/-- The percentages of exactly those enumerated devices whose capacity was
determinable and positive. -/
def eligiblePercents (env : Env) (disks : List String) : List ℚ :=
  disks.filterMap (devicePercent? env)

/-- The module-level worst-usage scan: start at 0, replace on strictly
greater. -/
def worstUsage (env : Env) (disks : List String) : ℚ :=
  disks.foldl
    (fun worst disk =>
      match devicePercent? env disk with
      | some percent => if worst < percent then percent else worst
      | none => worst) 0

/-- One line of the "Disk Usage Summary" section (module-level loop body). -/
def deviceLine (env : Env) (cfg : Config) (dev : String) : String :=
  match get_disk_size_bytes env dev with
  | some size =>
    if 0 < size then
      let used := get_used_bytes env dev
      let percent := (used : ℚ) / (size : ℚ) * 100
      let used_gb := (used : ℚ) / (1024 ^ 3 : ℚ)
      let size_gb := (size : ℚ) / (1024 ^ 3 : ℚ)
      check_emoji cfg percent ++ " /dev/" ++ dev ++ ":\t" ++ fmtFixed 2 used_gb ++
        "G / " ++ fmtFixed 2 size_gb ++ "G\t(" ++ fmtFixed 2 percent ++ "% used)"
    else "/dev/" ++ dev ++ ": Unable to get size"
  | none => "/dev/" ++ dev ++ ": Unable to get size"

/-- The module-level script body: build the report and, when today passes the
schedule gate, hand it to `send_ntfy` (the delivered payload is `some` of the
joined report).  `Except.error` models an uncaught Python exception
(`IndexError` on `hostname -I` output or inside `get_disks`, or a raised
`du` call). -/
def runProgram (env : Env) (cfg : Config) : Except Unit (List String × Option String) :=
  match (pyTokens (run env ["hostname", "-I"])).head? with
  | none => .error ()
  | some ip =>
    match get_disks env with
    | .error e => .error e
    | .ok disks =>
      let first_line_emoji := check_emoji cfg (worstUsage env disks)
      let header := first_line_emoji ++ "=== Server Info ===" ++ first_line_emoji ++
        "\nHost: " ++ env.hostname ++ " - IP: " ++ ip
      match get_disks env with
      | .error e => .error e
      | .ok disks2 =>
        match get_dir_sizes env cfg.dirsToCheck with
        | .error e => .error e
        | .ok dirLines =>
          let report := header :: "\n=== Disk Usage Summary ===" ::
            (disks2.map (deviceLine env cfg) ++ "\n=== Directory Sizes ===" :: dirLines)
          let payload :=
            if should_alert_today env cfg then some (String.intercalate ("\n") report)
            else none
          .ok (report, payload)

/-- The trimmed stdout of the du invocation for a directory; empty for a
raised call, which `get_dir_sizes` never consults because the raise already
aborted it. -/
def duOutput (env : Env) (d : String) : String :=
  match env.exec ["du", "-sh", d] with
  | .raised => ""
  | .completed _ out => pyStrip out

/-- Concrete world: one disk sda of 100 bytes with one mounted partition
using 50 bytes. -/
def envDigit : Env where
  exec := fun cmd =>
    if cmd = ["hostname", "-I"] then .completed 0 "1.2.3.4 10.0.0.1\n"
    else if cmd = ["lsblk", "-dn", "-o", "NAME,TYPE"] then .completed 0 "sda disk\n"
    else if cmd = ["lsblk", "-bn", "-o", "SIZE", "/dev/sda"] then .completed 0 "100\n"
    else if cmd = ["lsblk", "-ln", "-o", "NAME", "/dev/sda"] then .completed 0 "sda\nsda1\n"
    else if cmd = ["lsblk", "-n", "-o", "MOUNTPOINT", "/dev/sda1"] then .completed 0 "/mnt\n"
    else if cmd = ["df", "--output=used", "-B1", "/mnt"] then .completed 0 "Used\n50\n"
    else .completed 0 ""
  readFile := fun _ => none
  isdir := fun _ => false
  hostname := "h"
  today := 0

/-- Concrete world: the size query yields no digits, the sysfs sector file
reads 2048. -/
def envSectors : Env where
  exec := fun _ => .completed 0 ""
  readFile := fun p => if p = "/sys/block/sda/size" then some "2048\n" else none
  isdir := fun _ => false
  hostname := "h"
  today := 0

/-- Concrete world: one disk sda whose capacity is undeterminable. -/
def envUnable : Env where
  exec := fun cmd =>
    if cmd = ["hostname", "-I"] then .completed 0 "1.2.3.4 10.0.0.1\n"
    else if cmd = ["lsblk", "-dn", "-o", "NAME,TYPE"] then .completed 0 "sda disk\n"
    else .completed 0 ""
  readFile := fun _ => none
  isdir := fun _ => false
  hostname := "h"
  today := 0

/-- Concrete world: df reports a negative used-byte count for the single
mounted partition of sda. -/
def envNegDf : Env where
  exec := fun cmd =>
    if cmd = ["lsblk", "-ln", "-o", "NAME", "/dev/sda"] then .completed 0 "sda\nsda1\n"
    else if cmd = ["lsblk", "-n", "-o", "MOUNTPOINT", "/dev/sda1"] then .completed 0 "/mnt\n"
    else if cmd = ["df", "--output=used", "-B1", "/mnt"] then .completed 0 "Used\n-1\n"
    else .completed 0 ""
  readFile := fun _ => none
  isdir := fun _ => false
  hostname := "h"
  today := 0

/-- Concrete world: every command completes with exit status 1 and prints
text to stdout. -/
def envExit : Env where
  exec := fun _ => .completed 1 " hello \n"
  readFile := fun _ => none
  isdir := fun _ => false
  hostname := "h"
  today := 0

/-- Concrete world: every command raises (missing binary / I-O error). -/
def envRaise : Env where
  exec := fun _ => .raised
  readFile := fun _ => none
  isdir := fun _ => false
  hostname := "h"
  today := 0

/-- Concrete world: the size query for sda returns exactly the string 0. -/
def envZero : Env where
  exec := fun cmd =>
    if cmd = ["lsblk", "-bn", "-o", "SIZE", "/dev/sda"] then .completed 0 "0\n"
    else .completed 0 ""
  readFile := fun _ => none
  isdir := fun _ => false
  hostname := "h"
  today := 0

/-- Concrete world for the directory sizer: an existing directory with du
output, an existing directory with empty du output, and a missing one. -/
def envDirs : Env where
  exec := fun cmd =>
    if cmd = ["du", "-sh", "/etc"] then .completed 0 "4.2G\t/etc\n"
    else if cmd = ["du", "-sh", "/var/log"] then .completed 0 ""
    else .completed 0 ""
  readFile := fun _ => none
  isdir := fun d => d == "/etc" || d == "/var/log"
  hostname := "h"
  today := 0

/-- The configuration with an empty alert-day list. -/
def cfgNoAlert : Config :=
  { defaultConfig with alertDays := [] }

/-- The report the script builds in the world envUnable. -/
def reportUnable : List String :=
  ["✅=== Server Info ===✅\nHost: h - IP: 1.2.3.4",
   "\n=== Disk Usage Summary ===",
   "/dev/sda: Unable to get size",
   "\n=== Directory Sizes ===",
   "/etc: Not found", "/var/log: Not found", "/home: Not found"]

/-- The payload the script delivers in the world envUnable. -/
def payloadUnable : String :=
  String.intercalate ("\n") reportUnable

/-- The replace-on-strictly-greater step of the worst-usage scan is `max`. -/
theorem scan_step_eq_max (w p : ℚ) : (if w < p then p else w) = max w p := by
  rcases le_or_lt p w with h | h
  · rw [if_neg (not_lt.2 h), max_eq_left h]
  · rw [if_pos h, max_eq_right h.le]

/-- The worst-usage scan over devices equals a `max`-fold over the
percentages of the eligible devices. -/
theorem scan_eq_foldl_max (env : Env) (disks : List String) : ∀ a : ℚ,
    disks.foldl
      (fun worst disk =>
        match devicePercent? env disk with
        | some percent => if worst < percent then percent else worst
        | none => worst) a
    = (disks.filterMap (devicePercent? env)).foldl max a := by
  induction disks with
  | nil => intro a; rfl
  | cons d t ih =>
    intro a
    cases h : devicePercent? env d with
    | none => simp only [List.foldl_cons, List.filterMap_cons, h, ih]
    | some p =>
      simp only [List.foldl_cons, List.filterMap_cons, h]
      rw [scan_step_eq_max]
      exact ih (max a p)

/-- Worst usage as a fold of `max` over the eligible percentages. -/
theorem worstUsage_eq_foldl_max (env : Env) (disks : List String) :
    worstUsage env disks = (eligiblePercents env disks).foldl max 0 := by
  unfold worstUsage eligiblePercents
  exact scan_eq_foldl_max env disks 0

/-- The seed is a lower bound of a `max`-fold. -/
theorem le_foldl_max (l : List ℚ) : ∀ a : ℚ, a ≤ l.foldl max a := by
  induction l with
  | nil => intro a; exact le_refl a
  | cons x t ih => intro a; exact le_trans (le_max_left a x) (ih (max a x))

/-- Every member is a lower bound of a `max`-fold. -/
theorem mem_le_foldl_max {x : ℚ} {l : List ℚ} (hx : x ∈ l) : ∀ a : ℚ, x ≤ l.foldl max a := by
  induction l with
  | nil => exact absurd hx (List.not_mem_nil x)
  | cons y t ih =>
    intro a
    rcases List.mem_cons.1 hx with rfl | h
    · exact le_trans (le_max_right a x) (le_foldl_max t (max a x))
    · exact ih h (max a y)

/-- A `max`-fold is bounded by any common upper bound of seed and members. -/
theorem foldl_max_le {l : List ℚ} {m : ℚ} (h : ∀ x ∈ l, x ≤ m) :
    ∀ a : ℚ, a ≤ m → l.foldl max a ≤ m := by
  induction l with
  | nil => intro a ha; exact ha
  | cons y t ih =>
    intro a ha
    exact ih (fun x hx => h x (List.mem_cons_of_mem y hx))
      (max a y) (max_le ha (h y (List.mem_cons_self y t)))

/-- At the default thresholds, any percentage at most 70 classifies OK. -/
theorem check_emoji_default_ok {x : ℚ} (h : x ≤ 70) :
    check_emoji defaultConfig x = "✅" := by
  have hok : ((defaultConfig.okLevel : Int) : ℚ) = 70 := by norm_num [defaultConfig]
  unfold check_emoji
  rw [hok]
  exact if_pos h

/-- A fold of additions from a seed is the seed plus the sum of the images. -/
theorem foldl_add_eq_sum {α : Type} (f : α → Int) (l : List α) : ∀ a : Int,
    l.foldl (fun u p => u + f p) a = a + (l.map f).sum := by
  induction l with
  | nil => intro a; simp
  | cons x t ih =>
    intro a
    simp only [List.foldl_cons, List.map_cons, List.sum_cons, ih, add_assoc]

/-- A token fold with a non-empty accumulator yields at least one token. -/
theorem wsTokensAux_ne_nil_acc (l : List Char) : ∀ acc : List Char, acc ≠ [] →
    wsTokensAux l acc ≠ [] := by
  induction l with
  | nil =>
    intro acc h
    cases acc with
    | nil => exact absurd rfl h
    | cons a as => simp [wsTokensAux]
  | cons c cs ih =>
    intro acc h
    cases acc with
    | nil => exact absurd rfl h
    | cons a as =>
      cases hc : pyWS c with
      | true => simp [wsTokensAux, hc]
      | false =>
        have h2 := ih (c :: a :: as) (by simp)
        simpa [wsTokensAux, hc] using h2

/-- A character list containing a non-whitespace character has a token. -/
theorem wsTokensAux_ne_nil_of_mem (l : List Char)
    (hex : ∃ c ∈ l, pyWS c = false) : wsTokensAux l [] ≠ [] := by
  induction l with
  | nil =>
    rcases hex with ⟨c, hc, _⟩
    exact absurd hc (List.not_mem_nil c)
  | cons c cs ih =>
    rcases hex with ⟨d, hd, hdw⟩
    cases hc : pyWS c with
    | false =>
      have h2 := wsTokensAux_ne_nil_acc cs [c] (by simp)
      simpa [wsTokensAux, hc] using h2
    | true =>
      rcases List.mem_cons.1 hd with rfl | hd2
      · rw [hc] at hdw; cases hdw
      · have h2 := ih ⟨d, hd2, hdw⟩
        simpa [wsTokensAux, hc] using h2

/-- A non-empty stripped list holds a non-whitespace character. -/
theorem stripList_exists_not_ws (l : List Char) (h : stripList l ≠ []) :
    ∃ c ∈ stripList l, pyWS c = false := by
  have hdne : (l.dropWhile pyWS).reverse.dropWhile pyWS ≠ [] := by
    intro h0
    apply h
    unfold stripList
    rw [h0]
    rfl
  refine ⟨((l.dropWhile pyWS).reverse.dropWhile pyWS).head hdne, ?_, ?_⟩
  · unfold stripList
    exact List.mem_reverse.2 (List.head_mem hdne)
  · exact List.head_dropWhile_not pyWS _ hdne

/-- A non-empty stripped string splits into at least one token. -/
theorem pyTokens_pyStrip_ne_nil (s : String) (h : pyStrip s ≠ "") :
    pyTokens (pyStrip s) ≠ [] := by
  have hdata : stripList s.data ≠ [] := by
    intro h0
    apply h
    show (⟨stripList s.data⟩ : String) = ""
    rw [h0]
  have hex := stripList_exists_not_ws s.data hdata
  have hne := wsTokensAux_ne_nil_of_mem (stripList s.data) hex
  unfold pyTokens
  intro hmap
  exact hne (List.map_eq_nil_iff.mp hmap)

/-- C1: with OK-level 70 and Warning-level 60, `check_emoji` classifies any
percentage at most 70 as OK and any percentage above 70 as Critical; the
Warning marker is never returned, the Warning branch being unreachable under
the sequential check ordering. -/
theorem check_emoji_classification (p : ℚ) :
    (p ≤ 70 → check_emoji defaultConfig p = "✅") ∧
    (70 < p → check_emoji defaultConfig p = "🔴") ∧
    check_emoji defaultConfig p ≠ "🟠" := by
  have hok : ((defaultConfig.okLevel : Int) : ℚ) = 70 := by norm_num [defaultConfig]
  have hw : ((defaultConfig.warningLevel : Int) : ℚ) = 60 := by norm_num [defaultConfig]
  unfold check_emoji
  rw [hok, hw]
  refine ⟨fun h => if_pos h, fun h => ?_, ?_⟩
  · rw [if_neg (not_le.2 h), if_neg (not_le.2 (by linarith : (60 : ℚ) < p))]
  · by_cases h1 : p ≤ 70
    · rw [if_pos h1]
      decide
    · have h2 : (60 : ℚ) < p := by
        have := not_le.mp h1
        linarith
      rw [if_neg h1, if_neg (not_le.2 h2)]
      decide

/-- C1 witness: concrete classifications at 50, 85 and 75 percent. -/
theorem check_emoji_classification_witness :
    check_emoji defaultConfig 50 = "✅" ∧ check_emoji defaultConfig 85 = "🔴" ∧
    check_emoji defaultConfig 75 ≠ "🟠" :=
  ⟨(check_emoji_classification 50).1 (by norm_num),
   (check_emoji_classification 85).2.1 (by norm_num),
   (check_emoji_classification 75).2.2⟩

/-- C5 (amended): `run` returns the trimmed stdout of any completed process
regardless of its exit status (the source passes check=False, so a non-zero
exit is not an execution failure), and the empty string exactly when
execution raised (missing binary, I/O error). -/
theorem run_outcome (env : Env) (cmd : List String) :
    (env.exec cmd = .raised → run env cmd = "") ∧
    (∀ code out, env.exec cmd = .completed code out → run env cmd = pyStrip out) := by
  refine ⟨fun h => ?_, fun code out h => ?_⟩ <;> unfold run <;> rw [h]

/-- C5 counterexample: a command that completes with exit status 1 after
printing text makes `run` return that trimmed text, not the empty string the
claim prescribes for a non-zero exit status. -/
theorem run_nonzero_exit_counterexample :
    envExit.exec ["x"] = .completed 1 " hello \n" ∧
    run envExit ["x"] = "hello" ∧ ("hello" : String) ≠ "" :=
  ⟨rfl, by decide, by decide⟩

/-- C5 witness: `run` on a raising world and on an exit-status-1 world. -/
theorem run_outcome_witness :
    run envExit ["x"] = "hello" ∧ run envRaise ["x"] = "" := by
  constructor
  · have h := (run_outcome envExit ["x"]).2 1 " hello \n" rfl
    rw [h]
    decide
  · exact (run_outcome envRaise ["x"]).1 rfl

/-- C10: a capacity query that succeeds with exactly 0 bytes is treated the
same as an undeterminable capacity: the report line is the
unable-to-get-size fallback and the device is excluded from the worst-usage
scan, both guards testing strict positivity. -/
theorem zero_capacity_unable (env : Env) (cfg : Config) (dev : String)
    (h : get_disk_size_bytes env dev = some 0) :
    deviceLine env cfg dev = "/dev/" ++ dev ++ ": Unable to get size" ∧
    devicePercent? env dev = none := by
  unfold deviceLine devicePercent?
  rw [h]
  norm_num

/-- C10 witness: a world whose size query answers the digit string 0. -/
theorem zero_capacity_unable_witness :
    deviceLine envZero defaultConfig "sda" = "/dev/sda: Unable to get size" ∧
    devicePercent? envZero "sda" = none := by
  have h := zero_capacity_unable envZero defaultConfig "sda" (by decide)
  exact h

/-- C3: the capacity calculator uses the byte count of the device-listing
command whenever its trimmed output is a non-empty digit string, otherwise
falls back to the sector count read from the sysfs file times 512, and
returns an absent capacity when that read or parse also fails. -/
theorem capacity_lookup_branches (env : Env) (dev : String) :
    (pyIsdigit (run env ["lsblk", "-bn", "-o", "SIZE", "/dev/" ++ dev]) = true →
      get_disk_size_bytes env dev =
        some ((digitsToNat (run env ["lsblk", "-bn", "-o", "SIZE", "/dev/" ++ dev]).data : Nat) : Int)) ∧
    (pyIsdigit (run env ["lsblk", "-bn", "-o", "SIZE", "/dev/" ++ dev]) = false →
      (env.readFile ("/sys/block/" ++ dev ++ "/size") = none →
        get_disk_size_bytes env dev = none) ∧
      (∀ content, env.readFile ("/sys/block/" ++ dev ++ "/size") = some content →
        (∀ n, pyParseInt (pyStrip content) = some n →
          get_disk_size_bytes env dev = some (n * 512)) ∧
        (pyParseInt (pyStrip content) = none → get_disk_size_bytes env dev = none))) := by
  refine ⟨fun h => ?_, fun h => ⟨fun hr => ?_, fun content hc => ⟨fun n hp => ?_, fun hp => ?_⟩⟩⟩
  · simp [get_disk_size_bytes, h]
  · simp [get_disk_size_bytes, h, hr]
  · simp [get_disk_size_bytes, h, hc, hp]
  · simp [get_disk_size_bytes, h, hc, hp]

/-- C3 witness: the digit branch at size output 100 and the sysfs fallback
branch at sector count 2048. -/
theorem capacity_lookup_branches_witness :
    get_disk_size_bytes envDigit "sda" = some 100 ∧
    get_disk_size_bytes envSectors "sda" = some 1048576 := by
  constructor
  · have h := (capacity_lookup_branches envDigit "sda").1 (by decide)
    rw [h]
    decide
  · have h := ((capacity_lookup_branches envSectors "sda").2 (by decide)).2 ("2048\n") rfl
    have h2 := h.1 2048 (by decide)
    rw [h2]
    norm_num

/-- C4 (amended): the used-byte total is the sum of the per-partition
contributions in partition-list order, where the whole-disk entry, an
unmounted partition, and a partition with unparsable df output each
contribute zero; the total is non-negative provided every contribution is
(the source int() parse also accepts negative counts, so an adversarial df
output can make the total negative). -/
theorem used_bytes_aggregation (env : Env) (dev : String) :
    get_used_bytes env dev =
      ((pySplitlines (run env ["lsblk", "-ln", "-o", "NAME", "/dev/" ++ dev])).map
        (partContribution env dev)).sum ∧
    (∀ part, pyStrip part = dev → partContribution env dev part = 0) ∧
    (∀ part,
      (pySplitlines (run env ["lsblk", "-n", "-o", "MOUNTPOINT", "/dev/" ++ part])).head?.getD ("") = "" →
      partContribution env dev part = 0) ∧
    (∀ part m,
      (pySplitlines (run env ["lsblk", "-n", "-o", "MOUNTPOINT", "/dev/" ++ part])).head? = some m →
      ((pySplitlines (run env ["df", "--output=used", "-B1", m])).get? 1).bind pyParseInt = none →
      partContribution env dev part = 0) ∧
    ((∀ part ∈ pySplitlines (run env ["lsblk", "-ln", "-o", "NAME", "/dev/" ++ dev]),
        0 ≤ partContribution env dev part) →
      0 ≤ get_used_bytes env dev) := by
  have hsum : get_used_bytes env dev =
      ((pySplitlines (run env ["lsblk", "-ln", "-o", "NAME", "/dev/" ++ dev])).map
        (partContribution env dev)).sum := by
    unfold get_used_bytes
    rw [foldl_add_eq_sum]
    simp
  refine ⟨hsum, fun part hp => ?_, fun part h3 => ?_, fun part m hm hb => ?_, fun hpos => ?_⟩
  · simp [partContribution, hp]
  · unfold partContribution
    by_cases hwd : (pyStrip part == dev) = true
    · rw [if_pos hwd]
    · rw [if_neg hwd]
      cases hh : (pySplitlines (run env ["lsblk", "-n", "-o", "MOUNTPOINT", "/dev/" ++ part])).head? with
      | none => simp [hh]
      | some m =>
        have hme : m = "" := by
          rw [hh] at h3
          simpa using h3
        simp [hh, hme]
  · unfold partContribution
    by_cases hwd : (pyStrip part == dev) = true
    · rw [if_pos hwd]
    · rw [if_neg hwd]
      simp only [hm]
      by_cases hme : m = ""
      · simp [hme]
      · rw [if_pos hme]
        cases hget : (pySplitlines (run env ["df", "--output=used", "-B1", m])).get? 1 with
        | none => simp [hget]
        | some l2 =>
          have hpn : pyParseInt l2 = none := by
            rw [hget] at hb
            simpa using hb
          simp [hget, hpn]
  · rw [hsum]
    apply List.sum_nonneg
    intro x hx
    rcases List.mem_map.1 hx with ⟨p, hp, rfl⟩
    exact hpos p hp

/-- C4 counterexample: with the single partition mounted at /mnt and df
reporting a used count of -1, the used-byte total is -1, violating the
claimed unconditional non-negativity. -/
theorem used_bytes_negative_counterexample :
    get_used_bytes envNegDf "sda" = -1 ∧ ¬ (0 ≤ get_used_bytes envNegDf "sda") :=
  ⟨by decide, by decide⟩

/-- C4 witness: non-negativity under non-negative contributions, the skipped
whole-disk entry, and an unmounted partition contributing zero. -/
theorem used_bytes_aggregation_witness :
    0 ≤ get_used_bytes envDigit "sda" ∧
    partContribution envDigit "sda" "sda" = 0 ∧
    partContribution envDigit "sda" "sdb7" = 0 :=
  ⟨(used_bytes_aggregation envDigit "sda").2.2.2.2 (by decide),
   (used_bytes_aggregation envDigit "sda").2.1 ("sda") (by decide),
   (used_bytes_aggregation envDigit "sda").2.2.1 ("sdb7") (by decide)⟩

/-- C6: for every configured directory, in order, the sizer emits exactly one
of the three lines: the not-found line when the path is no directory, the
error line when the trimmed du output is empty, and otherwise the path with
the first whitespace-delimited field of the du output (assuming the du calls
themselves complete, raised calls being unhandled in the source). -/
theorem dir_sizes_lines (env : Env) (dirs : List String)
    (hdu : ∀ d ∈ dirs, env.isdir d = true → env.exec ["du", "-sh", d] ≠ .raised) :
    get_dir_sizes env dirs = .ok (dirs.map (fun d =>
      if env.isdir d = false then d ++ ": Not found"
      else if duOutput env d = "" then d ++ ": Error getting size"
      else d ++ ": " ++ (pyTokens (duOutput env d)).headD (""))) := by
  induction dirs with
  | nil => rfl
  | cons d rest ih =>
    have hrest := ih (fun x hx hdx => hdu x (List.mem_cons_of_mem d hx) hdx)
    have hd := hdu d (List.mem_cons_self d rest)
    simp only [get_dir_sizes, List.map_cons]
    cases hdir : env.isdir d with
    | false =>
      have hline : dirSizeLine env d = .ok (d ++ ": Not found") := by
        unfold dirSizeLine
        simp [hdir]
      rw [hline, hrest]
      simp [hdir]
    | true =>
      cases hex : env.exec ["du", "-sh", d] with
      | raised => exact absurd hex (hd hdir)
      | completed code out =>
        have hduo : duOutput env d = pyStrip out := by
          unfold duOutput
          rw [hex]
        by_cases hout : pyStrip out = ""
        · have hline : dirSizeLine env d = .ok (d ++ ": Error getting size") := by
            unfold dirSizeLine
            simp [hdir, hex, hout]
          rw [hline, hrest]
          simp [hdir, hduo, hout]
        · have htok := pyTokens_pyStrip_ne_nil out hout
          cases htk : (pyTokens (pyStrip out)).head? with
          | none => exact absurd (List.head?_eq_none_iff.mp htk) htok
          | some t =>
            have hline : dirSizeLine env d = .ok (d ++ ": " ++ t) := by
              unfold dirSizeLine
              simp [hdir, hex, hout, htk]
            rw [hline, hrest]
            simp [hdir, hduo, hout, htk]

/-- C6 witness: three configured directories hitting the three cases — du
output 4.2G, empty du output, and a missing directory. -/
theorem dir_sizes_lines_witness :
    get_dir_sizes envDirs ["/etc", "/var/log", "/home"] =
      .ok ["/etc: 4.2G", "/var/log: Error getting size", "/home: Not found"] := by
  have h := dir_sizes_lines envDirs ["/etc", "/var/log", "/home"] (by decide)
  rw [h]
  rfl

/-- C7 counterexample: for a device with undeterminable capacity the report
line is the string /dev/sda: Unable to get size, and no line of the report
reads exactly Unable to get size as the claim states. -/
theorem unable_line_counterexample :
    get_disk_size_bytes envUnable "sda" = none ∧
    runProgram envUnable defaultConfig = .ok (
      ["✅=== Server Info ===✅\nHost: h - IP: 1.2.3.4",
       "\n=== Disk Usage Summary ===",
       "/dev/sda: Unable to get size",
       "\n=== Directory Sizes ===",
       "/etc: Not found", "/var/log: Not found", "/home: Not found"],
      some "✅=== Server Info ===✅\nHost: h - IP: 1.2.3.4\n\n=== Disk Usage Summary ===\n/dev/sda: Unable to get size\n\n=== Directory Sizes ===\n/etc: Not found\n/var/log: Not found\n/home: Not found") ∧
    "Unable to get size" ∉
      ["✅=== Server Info ===✅\nHost: h - IP: 1.2.3.4",
       "\n=== Disk Usage Summary ===",
       "/dev/sda: Unable to get size",
       "\n=== Directory Sizes ===",
       "/etc: Not found", "/var/log: Not found", "/home: Not found"] :=
  ⟨by decide, rfl, by decide⟩

/-- C7 (amended): a device with undeterminable capacity gets the report line
/dev/<dev>: Unable to get size instead of a usage line, contributes no
percentage to the worst-usage scan, and when every device is excluded the
worst usage falls back to 0. -/
theorem unable_line_and_exclusion (env : Env) (cfg : Config) (dev : String)
    (disks : List String) :
    (get_disk_size_bytes env dev = none →
      deviceLine env cfg dev = "/dev/" ++ dev ++ ": Unable to get size" ∧
      devicePercent? env dev = none) ∧
    ((∀ d ∈ disks, devicePercent? env d = none) → worstUsage env disks = 0) := by
  constructor
  · intro h
    unfold deviceLine devicePercent?
    rw [h]
    exact ⟨rfl, rfl⟩
  · intro hall
    rw [worstUsage_eq_foldl_max]
    have hnil : eligiblePercents env disks = [] := by
      unfold eligiblePercents
      rw [List.filterMap_eq_nil_iff]
      exact hall
    rw [hnil]
    rfl

/-- C7 witness: the undeterminable-capacity world envUnable. -/
theorem unable_line_and_exclusion_witness :
    deviceLine envUnable defaultConfig "sda" = "/dev/sda: Unable to get size" ∧
    devicePercent? envUnable "sda" = none ∧
    worstUsage envUnable ["sda"] = 0 := by
  have h := unable_line_and_exclusion envUnable defaultConfig "sda" ["sda"]
  have h1 := h.1 (by decide)
  have h2 := h.2 (by decide)
  exact ⟨h1.1, h1.2, h2⟩

/-- A successful run decomposes into its header, disk section, directory
section and gate-controlled payload. -/
theorem runProgram_ok_shape (env : Env) (cfg : Config) (rpt : List String)
    (payload : Option String) (h : runProgram env cfg = .ok (rpt, payload)) :
    ∃ ip disks dirLines,
      (pyTokens (run env ["hostname", "-I"])).head? = some ip ∧
      get_disks env = .ok disks ∧
      get_dir_sizes env cfg.dirsToCheck = .ok dirLines ∧
      rpt = (check_emoji cfg (worstUsage env disks) ++ "=== Server Info ===" ++
             check_emoji cfg (worstUsage env disks) ++
             "\nHost: " ++ env.hostname ++ " - IP: " ++ ip) ::
            "\n=== Disk Usage Summary ===" ::
            (disks.map (deviceLine env cfg) ++ "\n=== Directory Sizes ===" :: dirLines) ∧
      payload = (if should_alert_today env cfg
                 then some (String.intercalate ("\n") rpt) else none) := by
  unfold runProgram at h
  cases hip : (pyTokens (run env ["hostname", "-I"])).head? with
  | none =>
    rw [hip] at h
    exact Except.noConfusion h
  | some ip =>
    rw [hip] at h
    cases hdsk : get_disks env with
    | error e =>
      rw [hdsk] at h
      exact Except.noConfusion h
    | ok disks =>
      rw [hdsk] at h
      cases hdl : get_dir_sizes env cfg.dirsToCheck with
      | error e =>
        rw [hdl] at h
        exact Except.noConfusion h
      | ok dirLines =>
        rw [hdl] at h
        have hpair := Except.ok.inj h
        injection hpair with hfst hsnd
        refine ⟨ip, disks, dirLines, rfl, rfl, rfl, hfst.symm, ?_⟩
        rw [← hsnd, ← hfst]

/-- C2: the severity marker on the report header line equals the
classification of the maximum usage percentage over exactly the devices
whose capacity was determinable and positive; with no such device the worst
usage is 0 and the marker is OK. -/
theorem header_marker_matches_worst_usage (env : Env) (disks : List String) :
    (eligiblePercents env disks = [] →
      worstUsage env disks = 0 ∧
      check_emoji defaultConfig (worstUsage env disks) = "✅") ∧
    (∀ m ∈ eligiblePercents env disks,
      (∀ p ∈ eligiblePercents env disks, p ≤ m) →
      check_emoji defaultConfig (worstUsage env disks) = check_emoji defaultConfig m) ∧
    (∀ rpt payload, runProgram env defaultConfig = .ok (rpt, payload) →
      get_disks env = .ok disks →
      ∃ ip, rpt.head? = some (check_emoji defaultConfig (worstUsage env disks) ++
        "=== Server Info ===" ++ check_emoji defaultConfig (worstUsage env disks) ++
        "\nHost: " ++ env.hostname ++ " - IP: " ++ ip)) := by
  refine ⟨fun hnil => ?_, fun m hm hub => ?_, fun rpt payload hrun hdisks => ?_⟩
  · have hw : worstUsage env disks = 0 := by
      rw [worstUsage_eq_foldl_max, hnil]
      rfl
    exact ⟨hw, by rw [hw]; exact check_emoji_default_ok (by norm_num)⟩
  · rw [worstUsage_eq_foldl_max]
    have hle : (eligiblePercents env disks).foldl max 0 ≤ max 0 m :=
      foldl_max_le (fun x hx => le_trans (hub x hx) (le_max_right 0 m)) 0 (le_max_left 0 m)
    have hge : max 0 m ≤ (eligiblePercents env disks).foldl max 0 :=
      max_le (le_foldl_max _ 0) (mem_le_foldl_max hm 0)
    rw [le_antisymm hle hge]
    rcases le_or_lt 0 m with h0 | h0
    · rw [max_eq_right h0]
    · rw [max_eq_left h0.le]
      rw [check_emoji_default_ok (by norm_num : (0 : ℚ) ≤ 70),
          check_emoji_default_ok (by linarith : m ≤ 70)]
  · obtain ⟨ip, disks2, dirLines, hip, hdisks2, hdl, hrpt, hpay⟩ :=
      runProgram_ok_shape env defaultConfig rpt payload hrun
    have hdd : disks2 = disks := by
      rw [hdisks2] at hdisks
      exact Except.ok.inj hdisks
    subst hdd
    exact ⟨ip, by rw [hrpt]; rfl⟩

/-- C2 witness: one eligible device at 50 percent, and the empty-eligible
world with header marker OK on the actual report head. -/
theorem header_marker_matches_worst_usage_witness :
    check_emoji defaultConfig (worstUsage envDigit ["sda"]) = check_emoji defaultConfig 50 ∧
    worstUsage envUnable ["sda"] = 0 ∧
    check_emoji defaultConfig (worstUsage envUnable ["sda"]) = "✅" ∧
    (∃ ip, reportUnable.head? =
      some (check_emoji defaultConfig (worstUsage envUnable ["sda"]) ++
        "=== Server Info ===" ++ check_emoji defaultConfig (worstUsage envUnable ["sda"]) ++
        "\nHost: " ++ envUnable.hostname ++ " - IP: " ++ ip)) := by
  have hsize : get_disk_size_bytes envDigit "sda" = some 100 := by decide
  have hused : get_used_bytes envDigit "sda" = 50 := by decide
  have hperc : devicePercent? envDigit "sda" = some 50 := by
    unfold devicePercent?
    simp only [hsize]
    rw [if_pos (by norm_num : (0 : Int) < 100), hused]
    norm_num
  have helig : eligiblePercents envDigit ["sda"] = [50] := by
    unfold eligiblePercents
    simp [hperc]
  have hnil : eligiblePercents envUnable ["sda"] = [] := by decide
  have hempty := (header_marker_matches_worst_usage envUnable ["sda"]).1 hnil
  refine ⟨?_, hempty.1, hempty.2, ?_⟩
  · refine (header_marker_matches_worst_usage envDigit ["sda"]).2.1 50 ?_ ?_
    · rw [helig]
      exact List.mem_singleton.mpr rfl
    · intro p hp
      rw [helig] at hp
      rw [List.mem_singleton.mp hp]
  · exact (header_marker_matches_worst_usage envUnable ["sda"]).2.2 reportUnable
      (some payloadUnable) rfl rfl

/-- C8: the notifier is handed a payload exactly when the weekday gate
passes; the default ALERT_DAYS (which contains every weekday index 0 to 6)
passes every weekday, and an empty ALERT_DAYS never passes. -/
theorem schedule_gate_controls_notifier (env : Env) (cfg : Config) :
    (∀ rpt payload, runProgram env cfg = .ok (rpt, payload) →
      (payload.isSome ↔ should_alert_today env cfg = true)) ∧
    (env.today < 7 → should_alert_today env defaultConfig = true) ∧
    (cfg.alertDays = [] → should_alert_today env cfg = false) := by
  refine ⟨fun rpt payload hrun => ?_, fun h7 => ?_, fun hnil => ?_⟩
  · obtain ⟨ip, disks, dirLines, _, _, _, _, hpay⟩ :=
      runProgram_ok_shape env cfg rpt payload hrun
    rw [hpay]
    cases hg : should_alert_today env cfg with
    | false => simp [hg]
    | true => simp [hg]
  · unfold should_alert_today
    revert h7
    generalize env.today = t
    intro h7
    interval_cases t <;> decide
  · unfold should_alert_today
    rw [hnil]
    rfl

/-- C8 witness: a run under the empty alert-day list carries no payload, the
default gate passes on weekday 0, and the empty gate refuses. -/
theorem schedule_gate_controls_notifier_witness :
    ((none : Option String).isSome ↔ should_alert_today envUnable cfgNoAlert = true) ∧
    should_alert_today envUnable defaultConfig = true ∧
    should_alert_today envUnable cfgNoAlert = false :=
  ⟨(schedule_gate_controls_notifier envUnable cfgNoAlert).1 reportUnable none rfl,
   (schedule_gate_controls_notifier envUnable defaultConfig).2.1 (by decide),
   (schedule_gate_controls_notifier envUnable cfgNoAlert).2.2 rfl⟩

/-- C9: two runs identical in every input and configuration value except
MIN_FREE_SPACE_GB produce identical reports and delivery payloads — the
constant is referenced by no computation. -/
theorem min_free_space_noninterference (env : Env) (c1 c2 : Config)
    (h1 : c1.ntfyUrl = c2.ntfyUrl) (h2 : c1.dirsToCheck = c2.dirsToCheck)
    (h3 : c1.okLevel = c2.okLevel) (h4 : c1.warningLevel = c2.warningLevel)
    (h5 : c1.alertDays = c2.alertDays) :
    runProgram env c1 = runProgram env c2 := by
  cases c1
  cases c2
  dsimp only at h1 h2 h3 h4 h5
  subst h1
  subst h2
  subst h3
  subst h4
  subst h5
  rfl

/-- C9 witness: changing only MIN_FREE_SPACE_GB leaves the run unchanged. -/
theorem min_free_space_noninterference_witness :
    runProgram envUnable { defaultConfig with minFreeSpaceGB := 123 } =
      runProgram envUnable defaultConfig :=
  min_free_space_noninterference envUnable _ _ rfl rfl rfl rfl rfl

end NtfyCron
